import Mathlib

/-!
A shallow embedding of the conversation-store and chat-service core of the
weather-chat-agent backend (`app/repository.py`, `app/service.py`,
`app/config.py`), with theorems checking the specification's claims about it.

Timestamps (`datetime.utcnow()`) are modelled as natural numbers; each store
operation takes the `now` values it reads as explicit parameters, exactly one
per `datetime.utcnow()` call in the source. SQLite tables are modelled as
lists of rows kept in rowid (insertion) order.
-/

namespace WeatherChat

/-- A row of the `messages` table (`repository.py`, dataclass `Message` /
`CREATE TABLE messages`). The rowid is the position in `Store.messages`. -/
structure Message where
  session_id : String
  role : String
  content : String
  created_at : Nat
deriving DecidableEq, Repr

/-- A row of the `sessions` table (`repository.py`, `CREATE TABLE sessions`):
`title` is nullable, the timestamps are NOT NULL. -/
structure SessionRow where
  id : String
  title : Option String
  created_at : Nat
  updated_at : Nat
deriving DecidableEq, Repr

/-- The SQLite database state: the two tables, each in rowid order. -/
structure Store where
  sessions : List SessionRow
  messages : List Message
deriving DecidableEq, Repr

/-- `SQLiteConversationRepository.create_session` (repository.py:94-103) with
an explicit session id `sid` and clock value `now`: the
`INSERT OR REPLACE INTO sessions` upsert replaces any existing row with the
same primary key by the fresh row `(sid, title, now, now)`. -/
def create_session (s : Store) (title : Option String) (sid : String) (now : Nat) : Store :=
  { s with sessions := (s.sessions.filter (fun r => r.id != sid)) ++ [⟨sid, title, now, now⟩] }

/-- `SQLiteConversationRepository.session_exists` (repository.py:105-108):
`SELECT 1 FROM sessions WHERE id=?` finds a row or not. -/
def session_exists (s : Store) (sid : String) : Bool :=
  s.sessions.any (fun r => r.id == sid)

/-- `SQLiteConversationRepository.append_message` (repository.py:110-124):
take `now`; if the session does not exist, create it (that inner
`create_session` call reads its own clock, `nowCreate`, and generates no id
since `session_id` is passed); insert the message row with `created_at = now`;
set the session's `updated_at` to the same `now`. -/
def append_message (s : Store) (sid role content : String) (now nowCreate : Nat) : Store :=
  let s1 := if session_exists s sid then s else create_session s none sid nowCreate
  { sessions := s1.sessions.map (fun r => if r.id == sid then { r with updated_at := now } else r),
    messages := s1.messages ++ [⟨sid, role, content, now⟩] }

/-- The rows of `messages` belonging to `sid` (`WHERE session_id=?`),
in rowid order. -/
def sessionMessages (s : Store) (sid : String) : List Message :=
  s.messages.filter (fun m => m.session_id == sid)

/-- Insert a message into a chronologically sorted list, after every message
whose `created_at` is ≤ its own (stability helper for `chronSort`). -/
def insertChron (m : Message) : List Message → List Message
  | [] => [m]
  | x :: xs => if m.created_at < x.created_at then m :: x :: xs else x :: insertChron m xs

/-- Stable sort of message rows by ascending `created_at`: rows with equal
timestamps stay in rowid order. This is the order of the
`(session_id, created_at)` index scanned forward. -/
def chronSort (l : List Message) : List Message :=
  l.foldl (fun acc m => insertChron m acc) []

/-- The SQL fetch of `get_messages` (repository.py:128-131):
`ORDER BY created_at DESC LIMIT ?`, i.e. a backward scan of the
`(session_id, created_at)` index — descending `created_at`, ties in
descending rowid order — truncated to `limit` rows. -/
def fetchDesc (s : Store) (sid : String) (limit : Nat) : List Message :=
  ((chronSort (sessionMessages s sid)).reverse).take limit

/-- `SQLiteConversationRepository.get_messages` (repository.py:126-142): the
most-recent-first fetch, then `list(reversed(messages))` into chronological
order. -/
def get_messages (s : Store) (sid : String) (limit : Nat) : List Message :=
  (fetchDesc s sid limit).reverse

/-- SQL `NULLIF(title, '')`: NULL stays NULL, the empty string becomes NULL. -/
def nullifEmpty : Option String → Option String
  | none => none
  | some t => if t = "" then none else some t

/-- `SQLiteConversationRepository.update_session_title_if_empty`
(repository.py:144-150): `SET title=COALESCE(NULLIF(title, ''), ?)` on the
row with the given id. -/
def update_session_title_if_empty (s : Store) (sid title : String) : Store :=
  { s with sessions := s.sessions.map (fun r =>
      if r.id == sid then { r with title := some ((nullifEmpty r.title).getD title) } else r) }

/-- `SQLiteConversationRepository.delete_session` (repository.py:168-173):
delete the session's messages, then the session row. -/
def delete_session (s : Store) (sid : String) : Store :=
  { sessions := s.sessions.filter (fun r => r.id != sid),
    messages := s.messages.filter (fun m => m.session_id != sid) }

/-- `SELECT ... FROM sessions WHERE id=?`: the session row for `sid`. -/
def sessionFind (s : Store) (sid : String) : Option SessionRow :=
  s.sessions.find? (fun r => r.id == sid)

section SortLemmas

theorem insertChron_perm (m : Message) (l : List Message) :
    List.Perm (insertChron m l) (m :: l) := by
  induction l with
  | nil => simp [insertChron]
  | cons x xs ih =>
    by_cases h : m.created_at < x.created_at
    · simp [insertChron, h]
    · simp only [insertChron, if_neg h]
      exact ((ih.cons x).trans (List.Perm.swap m x xs))

theorem insertChron_mem {a m : Message} {l : List Message}
    (h : a ∈ insertChron m l) : a = m ∨ a ∈ l := by
  have := (insertChron_perm m l).mem_iff.mp h
  simpa using this

theorem insertChron_pairwise (m : Message) (l : List Message)
    (h : l.Pairwise (fun a b => a.created_at ≤ b.created_at)) :
    (insertChron m l).Pairwise (fun a b => a.created_at ≤ b.created_at) := by
  induction l with
  | nil => simp [insertChron]
  | cons x xs ih =>
    rcases List.pairwise_cons.mp h with ⟨hx, hxs⟩
    by_cases hlt : m.created_at < x.created_at
    · simp only [insertChron, if_pos hlt]
      refine List.pairwise_cons.mpr ⟨?_, h⟩
      intro b hb
      rcases List.mem_cons.mp hb with hb | hb
      · exact hb ▸ Nat.le_of_lt hlt
      · exact Nat.le_trans (Nat.le_of_lt hlt) (hx b hb)
    · simp only [insertChron, if_neg hlt]
      refine List.pairwise_cons.mpr ⟨?_, ih hxs⟩
      intro b hb
      rcases insertChron_mem hb with hb | hb
      · exact hb ▸ Nat.le_of_not_lt hlt
      · exact hx b hb

theorem foldl_insertChron_perm (l acc : List Message) :
    List.Perm (l.foldl (fun a m => insertChron m a) acc) (acc ++ l) := by
  induction l generalizing acc with
  | nil => simp
  | cons m ms ih =>
    have h1 : List.Perm ((m :: ms).foldl (fun a m => insertChron m a) acc)
        (insertChron m acc ++ ms) := by simpa using ih (insertChron m acc)
    have h2 : List.Perm (insertChron m acc ++ ms) (m :: (acc ++ ms)) :=
      (insertChron_perm m acc).append_right ms
    exact h1.trans (h2.trans List.perm_middle.symm)

theorem chronSort_perm (l : List Message) : List.Perm (chronSort l) l := by
  simpa [chronSort] using foldl_insertChron_perm l []

theorem foldl_insertChron_pairwise (l acc : List Message)
    (h : acc.Pairwise (fun a b => a.created_at ≤ b.created_at)) :
    (l.foldl (fun a m => insertChron m a) acc).Pairwise
      (fun a b => a.created_at ≤ b.created_at) := by
  induction l generalizing acc with
  | nil => simpa using h
  | cons m ms ih => simpa using ih (insertChron m acc) (insertChron_pairwise m acc h)

theorem chronSort_pairwise (l : List Message) :
    (chronSort l).Pairwise (fun a b => a.created_at ≤ b.created_at) := by
  simpa [chronSort] using foldl_insertChron_pairwise l [] (by simp)

end SortLemmas

/-- C1: `get_messages(sessionId, limit)` is the reverse of the internal
most-recent-first fetch; its result is in non-decreasing `created_at` order;
and it consists of exactly the `limit` most-recently-created messages of the
session (the final `limit`-length segment of the chronologically sorted
session messages — all of them when fewer than `limit` exist), where the
chronological ordering is a permutation of the session's stored messages. -/
theorem get_messages_chronological_window (s : Store) (sid : String) (limit : Nat) :
    get_messages s sid limit = (fetchDesc s sid limit).reverse
    ∧ (get_messages s sid limit).Pairwise (fun a b => a.created_at ≤ b.created_at)
    ∧ get_messages s sid limit
        = (chronSort (sessionMessages s sid)).drop
            ((chronSort (sessionMessages s sid)).length - limit)
    ∧ List.Perm (chronSort (sessionMessages s sid)) (sessionMessages s sid) := by
  have hdrop : get_messages s sid limit
      = (chronSort (sessionMessages s sid)).drop
          ((chronSort (sessionMessages s sid)).length - limit) := by
    simp [get_messages, fetchDesc, List.take_reverse]
  refine ⟨rfl, ?_, hdrop, chronSort_perm _⟩
  rw [hdrop]
  exact (chronSort_pairwise (sessionMessages s sid)).drop

/-- The role label of service.py:86-91: `system` ↦ `System`, `user` ↦ `User`,
anything else ↦ `Assistant`. -/
def roleLabel (role : String) : String :=
  if role = "system" then "System" else if role = "user" then "User" else "Assistant"

/-- The transcript lines of service.py:84-95: the `if history:` guard, the
loop appending one `"<RoleLabel>: <content>"` line per stored message, then
the final `"User: <question>"` and bare `"Assistant:"` lines. -/
def transcriptLines (history : List Message) (question : String) : List String :=
  (if history.isEmpty then [] else history.map (fun m => roleLabel m.role ++ ": " ++ m.content))
    ++ ["User: " ++ question, "Assistant:"]

/-- service.py:96: `"\n".join(transcript_lines)`. -/
def buildPrompt (history : List Message) (question : String) : String :=
  String.intercalate "\n" (transcriptLines history question)

/-- The prompt `ask` sends to the agent (service.py:80-96): built over the
`max_history * 2` most recent stored messages of the session. -/
def askPrompt (s : Store) (sid question : String) (maxHistory : Nat) : String :=
  buildPrompt (get_messages s sid (maxHistory * 2)) question

/-- `get_settings().max_history_turns` (config.py:36-39):
`int(os.getenv("MAX_HISTORY_TURNS", "10"))` with a `ValueError` fallback of
10. `parsed` is the successfully parsed environment value; `none` models
both an unset variable (the `"10"` default string) and an unparsable one
(the `except ValueError` branch), all of which yield 10. -/
def max_history_turns (parsed : Option Int) : Int := parsed.getD 10

/-- A Python value observed as the `content` attribute of the agent response:
a `str`, or a non-`str` object whose `str()` conversion yields the given
string or raises (modelled by `none`). -/
inductive ContentVal
  | str (s : String)
  | other (strRes : Option String)
deriving DecidableEq, Repr

/-- The agent response as `ask` observes it (service.py:99-105): `content` is
`getattr(response, "content", None)` (`none` when the attribute is absent or
holds `None`), `selfStr` is the result of `str(response)` (`none` models
`str` raising). -/
structure AgentResponse where
  content : Option ContentVal
  selfStr : Option String
deriving DecidableEq, Repr

/-- service.py:100-105: coerce the reply to text. A `str` content passes
through; otherwise `str()` is tried on the content (on the whole response
when content is `None`), and a raised conversion yields `""`. -/
def coerceContent (r : AgentResponse) : String :=
  match r.content with
  | some (ContentVal.str s) => s
  | some (ContentVal.other st) => st.getD ""
  | none => r.selfStr.getD ""

/-- The observable outcome of one `ask` call: the returned
`(answer, session_id)` pair (`none` when the agent call raised and the
exception propagated), and the store left behind. -/
structure AskOutcome where
  result : Option (String × String)
  store : Store
deriving DecidableEq, Repr

/-- service.py:74: `if not session_id or not self._repo.session_exists(...)`.
Python's falsy test `not session_id` holds for both `None` and `""`. -/
def askNeedNew (s : Store) (sessionId : Option String) : Bool :=
  match sessionId with
  | none => true
  | some sid => sid == "" || !(session_exists s sid)

/-- The session id an `ask` call operates under: the generated `freshId`
when a new session is needed, else the caller's id. -/
def askSessionId (s : Store) (sessionId : Option String) (freshId : String) : String :=
  if askNeedNew s sessionId then freshId else sessionId.getD ""

/-- The store after the session-resolution step of `ask` (service.py:73-78):
when a new session is needed it is created under the generated `freshId`
(with `title=None`) and then titled from the question; otherwise the store
is untouched. -/
def askResolve (mkTitle : String → String) (s : Store) (question : String)
    (sessionId : Option String) (freshId : String) (nowS : Nat) : Store :=
  if askNeedNew s sessionId then
    update_session_title_if_empty (create_session s none freshId nowS) freshId
      (mkTitle question)
  else s

/-- `ask` (service.py:70-111, duplicated at 160-199 and 283-322 up to the
title text, abstracted here by `mkTitle`). The `agent` oracle models
`self._agent.get_response` (`none` = the call raises); `freshId` models the
uuid4 generated by `create_session` when a session must be created; the
`now*` arguments are the clock values of the `datetime.utcnow()` calls made
along the way. -/
def askWith (mkTitle : String → String) (s : Store) (question : String)
    (sessionId : Option String) (freshId : String) (maxHistory : Nat)
    (agent : String → Option AgentResponse)
    (nowS nowQ nowQc nowA nowAc : Nat) : AskOutcome :=
  let sid := askSessionId s sessionId freshId
  let s1 := askResolve mkTitle s question sessionId freshId nowS
  match agent (askPrompt s1 sid question maxHistory) with
  | none => { result := none, store := s1 }
  | some resp =>
      let content := coerceContent resp
      { result := some (content, sid),
        store := append_message (append_message s1 sid "user" question nowQ nowQc)
          sid "assistant" content nowA nowAc }

/-- `WeatherChatService.ask`: titles a new session with the first 60
characters of the trimmed question (service.py:77). -/
def weather_ask : Store → String → Option String → String → Nat →
    (String → Option AgentResponse) → Nat → Nat → Nat → Nat → Nat → AskOutcome :=
  askWith (fun q => q.trim.take 60)

/-- `SommelierChatService.ask`: titles a new session with
`"Sommelier: "` plus the first 56 characters of the trimmed question
(service.py:289). -/
def sommelier_ask : Store → String → Option String → String → Nat →
    (String → Option AgentResponse) → Nat → Nat → Nat → Nat → Nat → AskOutcome :=
  askWith (fun q => "Sommelier: " ++ q.trim.take 56)

theorem transcriptLines_eq (history : List Message) (question : String) :
    transcriptLines history question
      = history.map (fun m => roleLabel m.role ++ ": " ++ m.content)
          ++ ["User: " ++ question, "Assistant:"] := by
  cases history <;> simp [transcriptLines]

theorem intercalate_pair (sep a b : String) :
    String.intercalate sep [a, b] = a ++ sep ++ b := rfl

/-- C2: the prompt `ask` sends is the `2 × maxHistoryTurns` most recent
stored messages (as delivered by `get_messages`), each rendered as
`"<RoleLabel>: <content>"` with labels drawn exactly from
System/User/Assistant, followed by a final `"User: <question>"` line and a
bare `"Assistant:"` line, joined by newlines; with no prior messages the
prompt is just those two lines; and the configured `maxHistoryTurns`
defaults to 10. -/
theorem ask_prompt_form (s : Store) (sid question : String) (maxHistory : Nat) :
    askPrompt s sid question maxHistory
      = String.intercalate "\n"
          ((get_messages s sid (2 * maxHistory)).map
              (fun m => roleLabel m.role ++ ": " ++ m.content)
            ++ ["User: " ++ question, "Assistant:"])
    ∧ (get_messages s sid (2 * maxHistory) = [] →
        askPrompt s sid question maxHistory = "User: " ++ question ++ "\nAssistant:")
    ∧ (∀ m : Message, roleLabel m.role = "System" ∨ roleLabel m.role = "User"
        ∨ roleLabel m.role = "Assistant")
    ∧ roleLabel "system" = "System" ∧ roleLabel "user" = "User"
    ∧ roleLabel "assistant" = "Assistant"
    ∧ max_history_turns none = 10 := by
  have hcomm : maxHistory * 2 = 2 * maxHistory := Nat.mul_comm _ _
  refine ⟨?_, ?_, ?_, rfl, rfl, rfl, rfl⟩
  · rw [askPrompt, buildPrompt, transcriptLines_eq, hcomm]
  · intro h
    rw [askPrompt, buildPrompt, transcriptLines_eq, hcomm, h]
    rw [List.map_nil, List.nil_append, intercalate_pair, String.append_assoc]
    have : ("\n" : String) ++ "Assistant:" = "\nAssistant:" := by decide
    rw [this]
  · intro m
    by_cases h1 : m.role = "system"
    · exact Or.inl (by simp [roleLabel, h1])
    · by_cases h2 : m.role = "user"
      · exact Or.inr (Or.inl (by simp [roleLabel, h1, h2]))
      · exact Or.inr (Or.inr (by simp [roleLabel, h1, h2]))

/-- C2 witness: a concrete store with one prior exchange, evaluated. -/
theorem ask_prompt_form_witness :
    askPrompt ⟨[⟨"S", some "T", 0, 2⟩],
        [⟨"S", "user", "hello", 1⟩, ⟨"S", "assistant", "hi there", 2⟩]⟩ "S" "again?" 10
      = "User: hello\nAssistant: hi there\nUser: again?\nAssistant:"
    ∧ askPrompt ⟨[], []⟩ "S" "first?" 10 = "User: first?\nAssistant:" := by
  have h1 := (ask_prompt_form ⟨[⟨"S", some "T", 0, 2⟩],
      [⟨"S", "user", "hello", 1⟩, ⟨"S", "assistant", "hi there", 2⟩]⟩ "S" "again?" 10).1
  have h2 := (ask_prompt_form (⟨[], []⟩ : Store) "S" "first?" 10).2.1
  constructor
  · rw [h1]; decide
  · rw [h2 (by decide)]; decide

/-- C3: `append_message` on a session id absent from the store first creates
that session, then inserts the message and refreshes the session's
`updated_at`; afterwards `session_exists` is true, and the inserted
message's `created_at` equals the session's refreshed `updated_at` (both are
the one `now` the operation read). -/
theorem append_message_bootstraps_session (s : Store) (sid role content : String)
    (now nowCreate : Nat) (h : session_exists s sid = false) :
    session_exists (append_message s sid role content now nowCreate) sid = true
    ∧ (append_message s sid role content now nowCreate).messages
        = s.messages ++ [⟨sid, role, content, now⟩]
    ∧ sessionFind (append_message s sid role content now nowCreate) sid
        = some ⟨sid, none, nowCreate, now⟩
    ∧ ((append_message s sid role content now nowCreate).messages.getLast?).map
          Message.created_at
        = (sessionFind (append_message s sid role content now nowCreate) sid).map
            SessionRow.updated_at := by
  have hall : ∀ r ∈ s.sessions, (r.id == sid) = false := by
    intro r hr
    have := List.any_eq_false.mp h r hr
    simpa using this
  have hallne : ∀ r ∈ s.sessions, r.id ≠ sid := by
    intro r hr
    exact beq_eq_false_iff_ne.mp (hall r hr)
  have hfilter : s.sessions.filter (fun r => r.id != sid) = s.sessions := by
    refine List.filter_eq_self.mpr ?_
    intro r hr
    simp [bne_iff_ne, hallne r hr]
  have happ : append_message s sid role content now nowCreate
      = { sessions := s.sessions
            ++ [{ id := sid, title := none, created_at := nowCreate, updated_at := now }],
          messages := s.messages ++ [⟨sid, role, content, now⟩] } := by
    rw [append_message]
    rw [if_neg (by simp [h])]
    rw [create_session]
    simp only [hfilter, List.map_append]
    congr 1
    · rw [List.map_congr_left (g := id) ?_, List.map_id]
      · simp
      · intro r hr
        simp [hall r hr]
  have hfind : sessionFind
      ({ sessions := s.sessions
            ++ [{ id := sid, title := none, created_at := nowCreate, updated_at := now }],
          messages := s.messages ++ [⟨sid, role, content, now⟩] } : Store) sid
      = some ⟨sid, none, nowCreate, now⟩ := by
    rw [sessionFind]
    simp only [List.find?_append]
    have hnone : s.sessions.find? (fun r => r.id == sid) = none := by
      rw [List.find?_eq_none]
      intro r hr
      simp [hall r hr]
    rw [hnone]
    simp [List.find?]
  refine ⟨?_, by rw [happ], by rw [happ]; exact hfind, ?_⟩
  · rw [happ, session_exists]
    simp
  · rw [happ, hfind]
    simp

/-- C3 witness: appending to the empty store under a never-created id. -/
theorem append_message_bootstraps_session_witness :
    session_exists ⟨[], []⟩ "S" = false
    ∧ (session_exists (append_message ⟨[], []⟩ "S" "user" "hi" 5 4) "S" = true
       ∧ (append_message ⟨[], []⟩ "S" "user" "hi" 5 4).messages
           = ([] : List Message) ++ [⟨"S", "user", "hi", 5⟩]
       ∧ sessionFind (append_message ⟨[], []⟩ "S" "user" "hi" 5 4) "S"
           = some ⟨"S", none, 4, 5⟩
       ∧ ((append_message ⟨[], []⟩ "S" "user" "hi" 5 4).messages.getLast?).map
             Message.created_at
           = (sessionFind (append_message ⟨[], []⟩ "S" "user" "hi" 5 4) "S").map
               SessionRow.updated_at) :=
  ⟨by decide, append_message_bootstraps_session ⟨[], []⟩ "S" "user" "hi" 5 4 (by decide)⟩

/-- C7: `update_session_title_if_empty` is a no-op — the whole store is
unchanged, so no field of any session changes — whenever every `sessions`
row carrying the target id has a non-empty title. -/
theorem update_title_if_empty_noop (s : Store) (sid newTitle : String)
    (h : ∀ r ∈ s.sessions, r.id = sid → ∃ t, r.title = some t ∧ t ≠ "") :
    update_session_title_if_empty s sid newTitle = s := by
  rw [update_session_title_if_empty]
  have hmap : s.sessions.map (fun r =>
      if r.id == sid then { r with title := some ((nullifEmpty r.title).getD newTitle) } else r)
      = s.sessions := by
    rw [List.map_congr_left (g := id) ?_, List.map_id]
    intro r hr
    by_cases hid : r.id = sid
    · rcases h r hr hid with ⟨t, ht, htne⟩
      cases r with
      | mk rid rtitle ca ua =>
        simp only at ht
        subst ht
        simp [hid, nullifEmpty, htne]
    · simp [hid]
  rw [hmap]

/-- C7 witness: a session titled `"Alpha"` keeps its title and every other
field when the operation is called with `"Beta"`. -/
theorem update_title_if_empty_noop_witness :
    (∀ r ∈ (⟨[⟨"S", some "Alpha", 0, 0⟩], []⟩ : Store).sessions,
        r.id = "S" → ∃ t, r.title = some t ∧ t ≠ "")
    ∧ update_session_title_if_empty ⟨[⟨"S", some "Alpha", 0, 0⟩], []⟩ "S" "Beta"
        = (⟨[⟨"S", some "Alpha", 0, 0⟩], []⟩ : Store) := by
  have hhyp : ∀ r ∈ (⟨[⟨"S", some "Alpha", 0, 0⟩], []⟩ : Store).sessions,
      r.id = "S" → ∃ t, r.title = some t ∧ t ≠ "" := by
    intro r hr _
    rcases List.mem_singleton.mp hr with rfl
    exact ⟨"Alpha", rfl, by decide⟩
  exact ⟨hhyp, update_title_if_empty_noop _ "S" "Beta" hhyp⟩

/-- C8: `delete_session` is total and idempotent: deleting twice equals
deleting once; afterwards the session no longer exists and the messages
table is purged of every row of that session while every other session's
rows survive; and deleting an id that was never created (no session row, no
messages under it) leaves the store exactly as it was. -/
theorem delete_session_idempotent_total (s : Store) (sid : String) :
    delete_session (delete_session s sid) sid = delete_session s sid
    ∧ session_exists (delete_session s sid) sid = false
    ∧ sessionMessages (delete_session s sid) sid = []
    ∧ (∀ m ∈ s.messages, m.session_id ≠ sid → m ∈ (delete_session s sid).messages)
    ∧ (session_exists s sid = false → (∀ m ∈ s.messages, m.session_id ≠ sid) →
        delete_session s sid = s) := by
  refine ⟨?_, ?_, ?_, ?_, ?_⟩
  · simp [delete_session, List.filter_filter]
  · rw [session_exists]
    simp only [delete_session]
    rw [List.any_eq_false]
    intro r hr
    have := (List.mem_filter.mp hr).2
    simp only [bne_iff_ne, ne_eq, decide_eq_true_eq] at this
    simp [this]
  · rw [sessionMessages]
    simp only [delete_session]
    rw [List.filter_eq_nil_iff]
    intro m hm
    have := (List.mem_filter.mp hm).2
    simp only [bne_iff_ne, ne_eq, decide_eq_true_eq] at this
    simp [this]
  · intro m hm hne
    simp only [delete_session]
    exact List.mem_filter.mpr ⟨hm, by simp [bne_iff_ne, hne]⟩
  · intro hs hm
    have h1 : s.sessions.filter (fun r => r.id != sid) = s.sessions := by
      refine List.filter_eq_self.mpr ?_
      intro r hr
      have := List.any_eq_false.mp hs r hr
      simp only [beq_iff_eq] at this
      simp [bne_iff_ne, this]
    have h2 : s.messages.filter (fun m => m.session_id != sid) = s.messages := by
      refine List.filter_eq_self.mpr ?_
      intro m hmm
      simp [bne_iff_ne, hm m hmm]
    rw [delete_session, h1, h2]

/-- C8 witness: a concrete two-session store — deleting `"A"` purges its
message while `"B"`'s survives — and the never-created id `"C"`. -/
theorem delete_session_idempotent_total_witness :
    delete_session (delete_session
        ⟨[⟨"A", none, 0, 1⟩, ⟨"B", none, 0, 2⟩],
          [⟨"A", "user", "q", 1⟩, ⟨"B", "user", "r", 2⟩]⟩ "A") "A"
      = delete_session ⟨[⟨"A", none, 0, 1⟩, ⟨"B", none, 0, 2⟩],
          [⟨"A", "user", "q", 1⟩, ⟨"B", "user", "r", 2⟩]⟩ "A"
    ∧ session_exists (delete_session ⟨[⟨"A", none, 0, 1⟩, ⟨"B", none, 0, 2⟩],
          [⟨"A", "user", "q", 1⟩, ⟨"B", "user", "r", 2⟩]⟩ "A") "A" = false
    ∧ sessionMessages (delete_session ⟨[⟨"A", none, 0, 1⟩, ⟨"B", none, 0, 2⟩],
          [⟨"A", "user", "q", 1⟩, ⟨"B", "user", "r", 2⟩]⟩ "A") "A" = []
    ∧ (⟨"B", "user", "r", 2⟩ : Message) ∈ (delete_session
          ⟨[⟨"A", none, 0, 1⟩, ⟨"B", none, 0, 2⟩],
            [⟨"A", "user", "q", 1⟩, ⟨"B", "user", "r", 2⟩]⟩ "A").messages
    ∧ (session_exists (⟨[⟨"A", none, 0, 1⟩, ⟨"B", none, 0, 2⟩],
          [⟨"A", "user", "q", 1⟩, ⟨"B", "user", "r", 2⟩]⟩ : Store) "C" = false
        ∧ delete_session ⟨[⟨"A", none, 0, 1⟩, ⟨"B", none, 0, 2⟩],
            [⟨"A", "user", "q", 1⟩, ⟨"B", "user", "r", 2⟩]⟩ "C"
          = (⟨[⟨"A", none, 0, 1⟩, ⟨"B", none, 0, 2⟩],
              [⟨"A", "user", "q", 1⟩, ⟨"B", "user", "r", 2⟩]⟩ : Store)) := by
  have h := delete_session_idempotent_total
    (⟨[⟨"A", none, 0, 1⟩, ⟨"B", none, 0, 2⟩],
      [⟨"A", "user", "q", 1⟩, ⟨"B", "user", "r", 2⟩]⟩ : Store) "A"
  have h2 := delete_session_idempotent_total
    (⟨[⟨"A", none, 0, 1⟩, ⟨"B", none, 0, 2⟩],
      [⟨"A", "user", "q", 1⟩, ⟨"B", "user", "r", 2⟩]⟩ : Store) "C"
  exact ⟨h.1, h.2.1, h.2.2.1,
    h.2.2.2.1 ⟨"B", "user", "r", 2⟩ (by decide) (by decide),
    by decide, h2.2.2.2.2 (by decide) (by decide)⟩

/-- C5 counterexample: `create_session` with an explicit, already existing
session id is an `INSERT OR REPLACE` upsert (repository.py:99) — it replaces
the row and overwrites the non-empty title `"Alpha"` with its `title`
argument (`NULL` here), so a non-empty title is not preserved by every store
operation. -/
theorem create_session_overwrites_nonempty_title :
    sessionFind (⟨[⟨"S", some "Alpha", 0, 0⟩], []⟩ : Store) "S"
      = some ⟨"S", some "Alpha", 0, 0⟩
    ∧ sessionFind (create_session ⟨[⟨"S", some "Alpha", 0, 0⟩], []⟩ none "S" 1) "S"
      = some ⟨"S", none, 1, 1⟩ := by decide

theorem touch_preserves_title (l : List SessionRow) (sid2 : String) (now : Nat)
    (r : SessionRow)
    (hr : r ∈ l.map (fun r => if r.id == sid2 then { r with updated_at := now } else r)) :
    ∃ r0 ∈ l, r.id = r0.id ∧ r.title = r0.title := by
  rcases List.mem_map.mp hr with ⟨r0, hr0, rfl⟩
  refine ⟨r0, hr0, ?_⟩
  by_cases hb : (r0.id == sid2) = true <;> simp [hb]

/-- C5 amended: once a session's title is a non-empty string, neither
`append_message` nor `update_session_title_if_empty` (called on any session
id) changes it; `create_session` on the same id is excluded, since its
upsert replaces the whole row and can reset the title. -/
theorem nonempty_title_preserved (s : Store) (sid t : String) (ht : t ≠ "")
    (hex : session_exists s sid = true)
    (h : ∀ r ∈ s.sessions, r.id = sid → r.title = some t)
    (sid2 role content newTitle : String) (now nowCreate : Nat) :
    (∀ r ∈ (append_message s sid2 role content now nowCreate).sessions,
        r.id = sid → r.title = some t)
    ∧ (∀ r ∈ (update_session_title_if_empty s sid2 newTitle).sessions,
        r.id = sid → r.title = some t) := by
  constructor
  · intro r hr hid
    simp only [append_message] at hr
    rcases touch_preserves_title _ _ _ _ hr with ⟨r0, hr0, hideq, htitle⟩
    by_cases hex2 : session_exists s sid2
    · rw [if_pos hex2] at hr0
      exact htitle.trans (h r0 hr0 (hideq ▸ hid))
    · rw [if_neg hex2] at hr0
      simp only [create_session, List.mem_append] at hr0
      rcases hr0 with hr0 | hr0
      · exact htitle.trans (h r0 (List.mem_of_mem_filter hr0) (hideq ▸ hid))
      · rcases List.mem_singleton.mp hr0 with rfl
        exfalso
        apply hex2
        have hss : sid2 = sid := by
          have := hideq.symm.trans hid
          simpa using this
        rw [hss]
        exact hex
  · intro r hr hid
    simp only [update_session_title_if_empty] at hr
    rcases List.mem_map.mp hr with ⟨r0, hr0, rfl⟩
    by_cases hb : (r0.id == sid2) = true
    · have hid0 : r0.id = sid := by simpa [hb] using hid
      have ht0 := h r0 hr0 hid0
      simp [hb, ht0, nullifEmpty, ht]
    · have hid0 : r0.id = sid := by simpa [hb] using hid
      have ht0 := h r0 hr0 hid0
      simp [hb, ht0]

/-- C5 amended witness: a session titled `"Alpha"` keeps it across an
`append_message` and an `update_session_title_if_empty`. -/
theorem nonempty_title_preserved_witness :
    ("Alpha" : String) ≠ ""
    ∧ session_exists (⟨[⟨"S", some "Alpha", 0, 0⟩], []⟩ : Store) "S" = true
    ∧ (∀ r ∈ (⟨[⟨"S", some "Alpha", 0, 0⟩], []⟩ : Store).sessions,
        r.id = "S" → r.title = some "Alpha")
    ∧ (∀ r ∈ (append_message ⟨[⟨"S", some "Alpha", 0, 0⟩], []⟩ "S" "user" "q" 3 3).sessions,
        r.id = "S" → r.title = some "Alpha")
    ∧ (∀ r ∈ (update_session_title_if_empty ⟨[⟨"S", some "Alpha", 0, 0⟩], []⟩ "S"
          "Beta").sessions, r.id = "S" → r.title = some "Alpha") := by
  have hh : ∀ r ∈ (⟨[⟨"S", some "Alpha", 0, 0⟩], []⟩ : Store).sessions,
      r.id = "S" → r.title = some "Alpha" := by
    intro r hr _
    rcases List.mem_singleton.mp hr with rfl
    rfl
  have h := nonempty_title_preserved ⟨[⟨"S", some "Alpha", 0, 0⟩], []⟩ "S" "Alpha"
    (by decide) (by decide) hh "S" "user" "q" "Beta" 3 3
  exact ⟨by decide, by decide, hh, h.1, h.2⟩

/-- The three persona façade classes of service.py. -/
inductive PersonaClass
  | weather
  | math
  | sommelier
deriving DecidableEq, Repr

/-- Which class each façade's `instance()` classmethod instantiates when its
`_instance` attribute is still `None`: `WeatherChatService.instance`
constructs `WeatherChatService()` (service.py:64),
`MathChatService.instance` constructs `SommelierChatService()`
(service.py:154), and `SommelierChatService.instance` constructs
`SommelierChatService()` (service.py:277). -/
def instanceConstructs : PersonaClass → PersonaClass
  | .weather => .weather
  | .math => .sommelier
  | .sommelier => .sommelier

/-- One `instance()` access on a façade class: `stored` is the class's
current `_instance` class attribute (`none` models the initial `None`); the
result is the service instance returned and the new attribute value. -/
def instanceAccess (stored : Option PersonaClass) (cls : PersonaClass) :
    PersonaClass × Option PersonaClass :=
  match stored with
  | none => (instanceConstructs cls, some (instanceConstructs cls))
  | some inst => (inst, some inst)

/-- C4 fails on the code: each façade class does construct on first access
and returns the cached instance on every later access, but the math
persona's accessor constructs a `SommelierChatService`
(service.py:154), so `MathChatService.instance()` does not yield a math
persona service. -/
theorem math_instance_constructs_sommelier :
    (instanceAccess none PersonaClass.math).1 = PersonaClass.sommelier
    ∧ (instanceAccess none PersonaClass.math).1 ≠ PersonaClass.math
    ∧ (instanceAccess none PersonaClass.weather).1 = PersonaClass.weather
    ∧ (instanceAccess none PersonaClass.sommelier).1 = PersonaClass.sommelier
    ∧ ∀ cls inst, (instanceAccess (some inst) cls).1 = inst
        ∧ (instanceAccess (some inst) cls).2 = some inst := by
  refine ⟨rfl, by decide, rfl, rfl, ?_⟩
  intro cls inst
  exact ⟨rfl, rfl⟩

theorem create_session_messages (s : Store) (title : Option String) (sid : String)
    (now : Nat) : (create_session s title sid now).messages = s.messages := rfl

theorem update_title_messages (s : Store) (sid title : String) :
    (update_session_title_if_empty s sid title).messages = s.messages := rfl

theorem askResolve_messages (mkTitle : String → String) (s : Store) (question : String)
    (sessionId : Option String) (freshId : String) (nowS : Nat) :
    (askResolve mkTitle s question sessionId freshId nowS).messages = s.messages := by
  rw [askResolve]
  split <;> rfl

theorem append_message_messages (s : Store) (sid role content : String) (now nowC : Nat) :
    (append_message s sid role content now nowC).messages
      = s.messages ++ [⟨sid, role, content, now⟩] := by
  simp only [append_message]
  split <;> rfl

theorem get_messages_congr (s1 s2 : Store) (h : s1.messages = s2.messages)
    (sid : String) (limit : Nat) :
    get_messages s1 sid limit = get_messages s2 sid limit := by
  simp [get_messages, fetchDesc, sessionMessages, h]

/-- C6: when the agent call inside `ask` raises — the only way `ask` returns
no result — nothing has been appended: the store `ask` leaves behind holds
exactly the message rows it started with, so the user question is not
persisted and every session's history reads back unchanged. -/
theorem ask_agent_failure_no_write (mkTitle : String → String) (s : Store)
    (question : String) (sessionId : Option String) (freshId : String)
    (maxHistory : Nat) (agent : String → Option AgentResponse)
    (nowS nowQ nowQc nowA nowAc : Nat)
    (h : (askWith mkTitle s question sessionId freshId maxHistory agent
        nowS nowQ nowQc nowA nowAc).result = none) :
    (askWith mkTitle s question sessionId freshId maxHistory agent
        nowS nowQ nowQc nowA nowAc).store.messages = s.messages
    ∧ ∀ sid limit,
        get_messages (askWith mkTitle s question sessionId freshId maxHistory agent
          nowS nowQ nowQc nowA nowAc).store sid limit = get_messages s sid limit := by
  have hmsg : (askWith mkTitle s question sessionId freshId maxHistory agent
      nowS nowQ nowQc nowA nowAc).store.messages = s.messages := by
    simp only [askWith] at h ⊢
    cases hag : agent (askPrompt (askResolve mkTitle s question sessionId freshId nowS)
        (askSessionId s sessionId freshId) question maxHistory) with
    | none =>
      exact askResolve_messages mkTitle s question sessionId freshId nowS
    | some resp =>
      rw [hag] at h
      simp at h
  exact ⟨hmsg, fun sid limit => get_messages_congr _ _ hmsg sid limit⟩

/-- C6 witness: an agent that always raises, on the empty store. -/
theorem ask_agent_failure_no_write_witness :
    (askWith (fun q => q.trim.take 60) ⟨[], []⟩ "hi" none "F" 10 (fun _ => none)
        1 2 2 3 3).result = none
    ∧ (askWith (fun q => q.trim.take 60) ⟨[], []⟩ "hi" none "F" 10 (fun _ => none)
        1 2 2 3 3).store.messages = (⟨[], []⟩ : Store).messages :=
  ⟨rfl, (ask_agent_failure_no_write (fun q => q.trim.take 60) ⟨[], []⟩ "hi" none "F" 10
      (fun _ => none) 1 2 2 3 3 rfl).1⟩

/-- C9: reply coercion is total and best-effort. With a responding agent,
`ask` always returns a result — never an error — whose answer is the coerced
text, and that same text is the persisted assistant message; a non-`str`
content is converted with `str()` (of the content itself, or of the whole
response when content is absent), and a conversion that raises yields the
empty string. -/
theorem ask_coerces_content (mkTitle : String → String) (s : Store) (question : String)
    (sessionId : Option String) (freshId : String) (maxHistory : Nat)
    (resp : AgentResponse) (nowS nowQ nowQc nowA nowAc : Nat) :
    (askWith mkTitle s question sessionId freshId maxHistory (fun _ => some resp)
        nowS nowQ nowQc nowA nowAc).result
      = some (coerceContent resp, askSessionId s sessionId freshId)
    ∧ ((askWith mkTitle s question sessionId freshId maxHistory (fun _ => some resp)
        nowS nowQ nowQc nowA nowAc).store.messages.getLast?).map Message.content
      = some (coerceContent resp)
    ∧ (∀ st, resp.content = some (ContentVal.other st) → coerceContent resp = st.getD "")
    ∧ (resp.content = none → coerceContent resp = resp.selfStr.getD "")
    ∧ (resp.content = some (ContentVal.other none) → coerceContent resp = "")
    ∧ (resp.content = none → resp.selfStr = none → coerceContent resp = "") := by
  refine ⟨rfl, ?_, ?_, ?_, ?_, ?_⟩
  · simp only [askWith]
    rw [append_message_messages, append_message_messages]
    rw [List.getLast?_concat]
    rfl
  · intro st hst
    simp [coerceContent, hst]
  · intro hn
    simp [coerceContent, hn]
  · intro hst
    simp [coerceContent, hst]
  · intro hn hs
    simp [coerceContent, hn, hs]

/-- C9 witness: a response whose content is a non-`str` object on which
`str()` raises: the call still succeeds and both the answer and the
persisted text are `""`. -/
theorem ask_coerces_content_witness :
    (askWith (fun q => q.trim.take 60) ⟨[], []⟩ "q" none "F" 10
        (fun _ => some ⟨some (ContentVal.other none), none⟩) 1 2 2 3 3).result
      = some ("", "F")
    ∧ coerceContent ⟨some (ContentVal.other none), none⟩ = "" := by
  have h := ask_coerces_content (fun q => q.trim.take 60) ⟨[], []⟩ "q" none "F" 10
      ⟨some (ContentVal.other none), none⟩ 1 2 2 3 3
  have h5 := h.2.2.2.2.1 rfl
  refine ⟨?_, h5⟩
  rw [h.1, h5]
  rfl

theorem any_filter_ne (l : List SessionRow) (fid sid : String) (hne : fid ≠ sid) :
    (l.filter (fun r => r.id != fid)).any (fun r => r.id == sid)
      = l.any (fun r => r.id == sid) := by
  induction l with
  | nil => rfl
  | cons x xs ih =>
    by_cases hb : (x.id != fid) = true
    · rw [List.filter_cons_of_pos (p := fun (r : SessionRow) => r.id != fid) hb,
        List.any_cons, List.any_cons, ih]
    · rw [List.filter_cons_of_neg (p := fun (r : SessionRow) => r.id != fid) hb,
        List.any_cons, ih]
      have hx : x.id = fid := by simpa using hb
      have hf : (x.id == sid) = false := beq_eq_false_iff_ne.mpr (by rw [hx]; exact hne)
      rw [hf, Bool.false_or]

theorem session_exists_create_of_ne (s : Store) (title : Option String)
    (fid sid : String) (now : Nat) (hne : fid ≠ sid) :
    session_exists (create_session s title fid now) sid = session_exists s sid := by
  simp only [session_exists, create_session, List.any_append, List.any_cons, List.any_nil]
  rw [any_filter_ne s.sessions fid sid hne]
  simp [beq_eq_false_iff_ne.mpr hne]

theorem session_exists_update_title (s : Store) (sid2 title sid : String) :
    session_exists (update_session_title_if_empty s sid2 title) sid
      = session_exists s sid := by
  simp only [session_exists, update_session_title_if_empty, List.any_map]
  congr 1
  funext r
  by_cases hb : (r.id == sid2) = true <;> simp [hb, Function.comp]

theorem session_exists_append_of_exists (s : Store) (sid2 role content sid : String)
    (now nowC : Nat) (hex : session_exists s sid2 = true) :
    session_exists (append_message s sid2 role content now nowC) sid
      = session_exists s sid := by
  simp only [append_message, hex, if_true]
  simp only [session_exists, List.any_map]
  congr 1
  funext r
  by_cases hb : (r.id == sid2) = true <;> simp [hb, Function.comp]

theorem session_exists_create_self (s : Store) (title : Option String) (fid : String)
    (now : Nat) : session_exists (create_session s title fid now) fid = true := by
  simp [session_exists, create_session]

/-- C10: an `ask` call that supplies a session id absent from the store
discards it: a result, when returned, carries the freshly generated id
(distinct from the supplied one — uuid collisions excluded by `hfresh`), and
no session is ever created under the caller-supplied id. Shared by the
weather, math and sommelier services, whose `ask` bodies differ only in
`mkTitle`. -/
theorem ask_discards_unknown_session_id (mkTitle : String → String) (s : Store)
    (question sid freshId : String) (maxHistory : Nat)
    (agent : String → Option AgentResponse) (nowS nowQ nowQc nowA nowAc : Nat)
    (hne : session_exists s sid = false) (hfresh : freshId ≠ sid) :
    (∀ ans rid, (askWith mkTitle s question (some sid) freshId maxHistory agent
        nowS nowQ nowQc nowA nowAc).result = some (ans, rid) →
          rid = freshId ∧ rid ≠ sid)
    ∧ session_exists (askWith mkTitle s question (some sid) freshId maxHistory agent
        nowS nowQ nowQc nowA nowAc).store sid = false := by
  have hneed : askNeedNew s (some sid) = true := by
    simp [askNeedNew, hne]
  have hsid : askSessionId s (some sid) freshId = freshId := by
    simp [askSessionId, hneed]
  have hres : askResolve mkTitle s question (some sid) freshId nowS
      = update_session_title_if_empty (create_session s none freshId nowS) freshId
          (mkTitle question) := by
    simp [askResolve, hneed]
  have hs1ne : session_exists (askResolve mkTitle s question (some sid) freshId nowS) sid
      = false := by
    rw [hres, session_exists_update_title, session_exists_create_of_ne s none freshId sid
      nowS hfresh]
    exact hne
  have hs1f : session_exists (askResolve mkTitle s question (some sid) freshId nowS) freshId
      = true := by
    rw [hres, session_exists_update_title]
    exact session_exists_create_self s none freshId nowS
  constructor
  · intro ans rid hok
    simp only [askWith] at hok
    cases hag : agent (askPrompt (askResolve mkTitle s question (some sid) freshId nowS)
        (askSessionId s (some sid) freshId) question maxHistory) with
    | none => rw [hag] at hok; simp at hok
    | some resp =>
      rw [hag] at hok
      have hp : (coerceContent resp, askSessionId s (some sid) freshId) = (ans, rid) :=
        Option.some.inj hok
      have hrid : rid = askSessionId s (some sid) freshId := (congrArg Prod.snd hp).symm
      rw [hsid] at hrid
      exact ⟨hrid, hrid ▸ hfresh⟩
  · simp only [askWith]
    cases hag : agent (askPrompt (askResolve mkTitle s question (some sid) freshId nowS)
        (askSessionId s (some sid) freshId) question maxHistory) with
    | none => exact hs1ne
    | some resp =>
      show session_exists (append_message (append_message
          (askResolve mkTitle s question (some sid) freshId nowS)
          (askSessionId s (some sid) freshId) "user" question nowQ nowQc)
          (askSessionId s (some sid) freshId) "assistant" (coerceContent resp)
          nowA nowAc) sid = false
      rw [hsid]
      have h2f : session_exists (append_message
          (askResolve mkTitle s question (some sid) freshId nowS)
          freshId "user" question nowQ nowQc) freshId = true := by
        rw [session_exists_append_of_exists _ _ _ _ _ _ _ hs1f]
        exact hs1f
      rw [session_exists_append_of_exists _ _ _ _ _ _ _ h2f]
      rw [session_exists_append_of_exists _ _ _ _ _ _ _ hs1f]
      exact hs1ne

/-- C10 witness: asking with the unknown id `"B"` on the empty store, with
generated id `"F"`: the returned id is `"F"` and `"B"` is never created. -/
theorem ask_discards_unknown_session_id_witness :
    session_exists ⟨[], []⟩ "B" = false
    ∧ ("F" : String) ≠ "B"
    ∧ (askWith (fun q => q.trim.take 60) ⟨[], []⟩ "hi" (some "B") "F" 10
        (fun _ => some ⟨some (ContentVal.str "ok"), some "ok"⟩) 1 2 2 3 3).result
      = some ("ok", "F")
    ∧ session_exists (askWith (fun q => q.trim.take 60) ⟨[], []⟩ "hi" (some "B") "F" 10
        (fun _ => some ⟨some (ContentVal.str "ok"), some "ok"⟩) 1 2 2 3 3).store "B"
      = false := by
  have h := ask_discards_unknown_session_id (fun q => q.trim.take 60) ⟨[], []⟩ "hi" "B" "F"
      10 (fun _ => some ⟨some (ContentVal.str "ok"), some "ok"⟩) 1 2 2 3 3
      (by decide) (by decide)
  exact ⟨by decide, by decide, by decide, h.2⟩

end WeatherChat
